import Mathlib

/-!
Shallow embedding of the logger.js core (tklein1801/logger.js) in Lean 4,
used to verify the natural-language specification against the code.

The embedding translates:
- src/shouldPublishLog/shouldPublishLog.ts (level gate)
- src/logger.ts (createLogger, sanitizeLogMeta, splitLogParams, child, setLogLevel)
- src/transport/transport.ts (Transport: constructor, addLogToQueue,
  performFlush, flush, configure, destroy, assertOptionIsSet)
- src/transportManager/transportManager.ts (injectOptions)

JavaScript runtime values appearing in metadata are modelled by the
inductive type JsValue; the platform builtins JSON.stringify and String()
are modelled by jsonRun and jsToString (structural fidelity: character
escaping inside produced strings is elided, which no claim depends on).
A self-referential value, which cannot be built as an inductive tree, is
modelled by the dedicated constructor JsValue.vCyclic, on which JSON
serialization fails, matching the runtime behavior that JSON.stringify
throws on a cyclic structure while String() yields the generic
object representation.
-/

/-- Log severity levels, from src/logger.ts: FATAL=0, ERROR=1, WARN=2,
INFO=3, DEBUG=4, SILENT=5. -/
inductive LogLevel where
  | fatal
  | error
  | warn
  | info
  | debug
  | silent
deriving DecidableEq, Repr

/-- Numeric value of a log level as declared in the TypeScript enum. -/
def levelValue : LogLevel → Nat
  | .fatal => 0
  | .error => 1
  | .warn => 2
  | .info => 3
  | .debug => 4
  | .silent => 5

/-- Embedding of shouldPublishLog from
src/shouldPublishLog/shouldPublishLog.ts: if currentLevel is SILENT
return false, otherwise return logLevel less-or-equal currentLevel. -/
def shouldPublishLog (currentLevel logLevel : LogLevel) : Bool :=
  if currentLevel = LogLevel.silent then false
  else decide (levelValue logLevel ≤ levelValue currentLevel)

/-- Model of a JavaScript runtime value as it can appear in raw log
metadata. Numbers are modelled by Int (the claims only involve integer
values; float behavior is irrelevant to every claim). vFunc carries the
source text String() would produce for the function; vSym carries the
symbol description; vDate carries the ISO string; vCyclic models a
self-referential plain object. -/
inductive JsValue where
  | vNull
  | vUndefined
  | vStr (s : String)
  | vNum (n : Int)
  | vBool (b : Bool)
  | vFunc (src : String)
  | vSym (desc : String)
  | vObj (fields : List (String × JsValue))
  | vArr (items : List JsValue)
  | vDate (iso : String)
  | vCyclic
deriving Repr

/-- Result of the JavaScript typeof operator on a modelled value. -/
def jsTypeof : JsValue → String
  | .vNull => "object"
  | .vUndefined => "undefined"
  | .vStr _ => "string"
  | .vNum _ => "number"
  | .vBool _ => "boolean"
  | .vFunc _ => "function"
  | .vSym _ => "symbol"
  | .vObj _ => "object"
  | .vArr _ => "object"
  | .vDate _ => "object"
  | .vCyclic => "object"

/-- JavaScript truthiness test: returns true exactly on the falsy values
null, undefined, the number 0, the empty string and false. -/
def isFalsy : JsValue → Bool
  | .vNull => true
  | .vUndefined => true
  | .vStr s => s == ""
  | .vNum n => n == 0
  | .vBool b => !b
  | _ => false

/-- Quotation of a string for the JSON output model (escaping of special
characters inside the payload is elided; no claim depends on it). -/
def jsonQuote (s : String) : String := "\"" ++ s ++ "\""

mutual

/-- Model of the String() conversion of a JavaScript value. -/
def jsToString : JsValue → String
  | .vNull => "null"
  | .vUndefined => "undefined"
  | .vStr s => s
  | .vNum n => toString n
  | .vBool b => if b then "true" else "false"
  | .vFunc src => src
  | .vSym desc => "Symbol(" ++ desc ++ ")"
  | .vObj _ => "[object Object]"
  | .vArr items => String.intercalate "," (jsArrayItemStrings items)
  | .vDate iso => iso
  | .vCyclic => "[object Object]"

/-- Element strings used by Array.prototype.toString: null and undefined
elements render as the empty string. -/
def jsArrayItemStrings : List JsValue → List String
  | [] => []
  | .vNull :: rest => "" :: jsArrayItemStrings rest
  | .vUndefined :: rest => "" :: jsArrayItemStrings rest
  | v :: rest => jsToString v :: jsArrayItemStrings rest

end

/-- Outcome of the modelled JSON.stringify: a produced string, the
undefined result (skip: functions, symbols, undefined), or a thrown
error (err: self-referential structure). -/
inductive JsonResult where
  | ok (s : String)
  | skip
  | err
deriving DecidableEq, Repr

mutual

/-- Model of JSON.stringify. Object fields whose value serializes to
skip are omitted; array items serializing to skip become null; a
self-referential value makes the whole serialization fail (err). -/
def jsonRun : JsValue → JsonResult
  | .vNull => .ok "null"
  | .vUndefined => .skip
  | .vStr s => .ok (jsonQuote s)
  | .vNum n => .ok (toString n)
  | .vBool b => .ok (if b then "true" else "false")
  | .vFunc _ => .skip
  | .vSym _ => .skip
  | .vObj fields =>
    match jsonFieldStrings fields with
    | some l => .ok ("\x7b" ++ String.intercalate "," l ++ "\x7d")
    | none => .err
  | .vArr items =>
    match jsonItemStrings items with
    | some l => .ok ("[" ++ String.intercalate "," l ++ "]")
    | none => .err
  | .vDate iso => .ok (jsonQuote iso)
  | .vCyclic => .err

/-- Serialized key:value snippets of an object, none when serialization
of some field value throws. -/
def jsonFieldStrings : List (String × JsValue) → Option (List String)
  | [] => some []
  | (k, v) :: rest =>
    match jsonRun v, jsonFieldStrings rest with
    | .err, _ => none
    | _, none => none
    | .skip, some l => some l
    | .ok s, some l => some ((jsonQuote k ++ ":" ++ s) :: l)

/-- Serialized item snippets of an array, none when serialization of
some item throws. -/
def jsonItemStrings : List JsValue → Option (List String)
  | [] => some []
  | v :: rest =>
    match jsonRun v, jsonItemStrings rest with
    | .err, _ => none
    | _, none => none
    | .skip, some l => some ("null" :: l)
    | .ok s, some l => some (s :: l)

end

/-- Raw metadata object as handed to sanitizeLogMeta: the entries of a
JavaScript object (keys are unique in a real object). -/
abbrev RawMeta : Type := List (String × JsValue)

/-- Sanitized metadata attached to log entries (LogMeta in src/logger.ts). -/
abbrev LogMeta : Type := List (String × JsValue)

/-- Per-value part of sanitizeLogMeta from src/logger.ts, mirroring its
control flow: falsy values pass through; string/number/boolean (by
typeof) pass through; function/symbol become String(value); everything
else goes through JSON.stringify inside try/catch with String(value) as
the catch fallback (a skip outcome would be assigned as undefined, which
is unreachable in this branch). -/
def sanitizeValue (value : JsValue) : JsValue :=
  if isFalsy value then value
  else if jsTypeof value == "string" || jsTypeof value == "number"
      || jsTypeof value == "boolean" then value
  else if jsTypeof value == "function" || jsTypeof value == "symbol" then
    JsValue.vStr (jsToString value)
  else
    match jsonRun value with
    | .ok s => JsValue.vStr s
    | .skip => JsValue.vUndefined
    | .err => JsValue.vStr (jsToString value)

/-- Embedding of sanitizeLogMeta from src/logger.ts: each entry of the
raw metadata object is sanitized in place (keys of a JavaScript object
are unique, so per-entry assignment is the map over entries). -/
def sanitizeLogMeta (rawMeta : RawMeta) : LogMeta :=
  rawMeta.map (fun p => (p.1, sanitizeValue p.2))

/-- Log entry handed to transports (LogEntry in src/transport/transport.ts).
The Date timestamp is modelled as a Nat tick. -/
structure LogEntry where
  dateTime : Nat
  level : LogLevel
  message : String
  meta : Option LogMeta := none

/-- Behavior of one sendBatch invocation of the abstract sink: immediate
or eventual success, a synchronous throw, or an asynchronous rejection
observed later through the promise. -/
inductive SendOutcome where
  | success
  | syncThrow
  | asyncReject
deriving DecidableEq, Repr

/-- Stored transport options, mirroring the transportOptions field of
Transport in src/transport/transport.ts. batchSize and debounceMs are
JavaScript numbers modelled as Int (the constructor and configure clamp
them). level and enabled stay possibly undefined. The TypeScript type
declares label as a required string, but the injectOptions path of the
TransportManager can assign undefined to it at runtime (assigning
options.label when the injected options carry no label), so the
runtime-faithful model keeps it optional; the constructor always stores
some string. -/
structure StoredTransportOptions where
  batchSize : Int
  debounceMs : Int
  level : Option LogLevel
  enabled : Option Bool
  label : Option String
deriving Repr

/-- A value of TypeScript type Partial of TransportOptions (also the
constructor argument, whose fields are all optional). For batchSize and
debounceMs the code only reads the value through the nullish-coalescing
operator, so an absent and a present-but-undefined property behave
identically and a single Option layer suffices. For level, enabled and
label the object spread in configure distinguishes an absent property
(outer none: the current value is kept) from a property explicitly
present with value undefined (some none: the stored value becomes
undefined), so those fields carry two Option layers. -/
structure PartialTransportOptions where
  batchSize : Option Int := none
  debounceMs : Option Int := none
  level : Option (Option LogLevel) := none
  enabled : Option (Option Bool) := none
  label : Option (Option String) := none

/-- Mutable state of a Transport: its stored options, the live logQueue,
and whether a debounced flush is currently scheduled (the single pending
invocation of the lodash-debounced performFlush; calling the debounced
function arms or re-arms it, cancel disarms it). -/
structure TransportState where
  transportOptions : StoredTransportOptions
  logQueue : List LogEntry
  debounceArmed : Bool

/-- Result of running a transport operation: the state afterwards, the
list of sendBatch invocations the operation performed synchronously (in
order, each with its argument), and the snapshots whose asynchronous
rejection handler is still pending. -/
structure TransportStep where
  state : TransportState
  calls : List (List LogEntry) := []
  pendingRejections : List (List LogEntry) := []

/-- Embedding of the Transport constructor: batchSize defaults to 10 and
is clamped to at least 1, debounceMs defaults to 300 and is clamped to
at least 0, level and enabled are stored as given (possibly undefined),
label defaults to the empty string; the queue starts empty and no
debounced flush is scheduled. -/
def mkTransport (options : PartialTransportOptions) : TransportState :=
  { transportOptions :=
      { batchSize := max 1 (options.batchSize.getD 10)
        debounceMs := max 0 (options.debounceMs.getD 300)
        level := options.level.join
        enabled := options.enabled.join
        label := some ((options.label.join).getD "") }
    logQueue := []
    debounceArmed := false }

/-- Embedding of Transport.performFlush: if the queue is empty do
nothing; otherwise snapshot the queue, replace it by an empty one and
invoke sendBatch with the snapshot. A synchronous throw is caught and
the snapshot is unshifted back onto the live queue; an asynchronous
rejection leaves a pending handler that will unshift the snapshot later;
the failure is never surfaced to the caller (the operation returns
normally in every case). -/
def performFlush (sink : List LogEntry → SendOutcome) (s : TransportState) :
    TransportStep :=
  if s.logQueue.isEmpty then { state := s }
  else
    let logsToSend := s.logQueue
    let s1 : TransportState := { s with logQueue := [] }
    match sink logsToSend with
    | .success => { state := s1, calls := [logsToSend] }
    | .syncThrow =>
      { state := { s1 with logQueue := logsToSend ++ s1.logQueue }
        calls := [logsToSend] }
    | .asyncReject =>
      { state := s1, calls := [logsToSend], pendingRejections := [logsToSend] }

/-- The catch handler of an asynchronously rejected sendBatch promise:
it unshifts the failed snapshot onto the front of whatever the live
queue contains at rejection time. -/
def handleAsyncRejection (logsToSend : List LogEntry) (s : TransportState) :
    TransportState :=
  { s with logQueue := logsToSend ++ s.logQueue }

namespace Transport

/-- Embedding of Transport.flush: cancel any pending debounced flush,
then perform the flush immediately. -/
def flush (sink : List LogEntry → SendOutcome) (s : TransportState) :
    TransportStep :=
  performFlush sink { s with debounceArmed := false }

/-- Embedding of Transport.destroy: flush, then cancel the debounced
function (a second, redundant cancel after the one inside flush). -/
def destroy (sink : List LogEntry → SendOutcome) (s : TransportState) :
    TransportStep :=
  let r := flush sink s
  { r with state := { r.state with debounceArmed := false } }

/-- Embedding of Transport.addLogToQueue: first assert that the level
option is set (throwing the configuration-misuse error otherwise), then
silently return unless enabled is exactly true, then apply the level
gate, then push the entry; if the queue has reached batchSize, cancel
the pending debounced flush and flush synchronously, otherwise
(re)schedule the debounced flush. -/
def addLogToQueue (sink : List LogEntry → SendOutcome) (entry : LogEntry)
    (s : TransportState) : Except String TransportStep :=
  match s.transportOptions.level with
  | none => .error "level is not set on transport"
  | some lvl =>
    if s.transportOptions.enabled = some true then
      if shouldPublishLog lvl entry.level then
        let s1 : TransportState := { s with logQueue := s.logQueue ++ [entry] }
        if (s1.logQueue.length : Int) ≥ s1.transportOptions.batchSize then
          .ok (performFlush sink { s1 with debounceArmed := false })
        else
          .ok { state := { s1 with debounceArmed := true } }
      else .ok { state := s }
    else .ok { state := s }

/-- Processing a list of entries through addLogToQueue in order,
accumulating the sendBatch invocations; the first thrown assertion
aborts, as it would abort the caller loop. -/
def addLogsToQueue (sink : List LogEntry → SendOutcome) :
    List LogEntry → TransportState → Except String TransportStep
  | [], s => .ok { state := s }
  | e :: rest, s =>
    match addLogToQueue sink e s with
    | .error msg => .error msg
    | .ok step =>
      match addLogsToQueue sink rest step.state with
      | .error msg => .error msg
      | .ok step2 =>
        .ok { state := step2.state
              calls := step.calls ++ step2.calls
              pendingRejections :=
                step.pendingRejections ++ step2.pendingRejections }

/-- The debounce timer expiring after the configured quiet period: if a
debounced flush is armed it fires performFlush (disarming itself),
otherwise nothing happens. -/
def fireDebounce (sink : List LogEntry → SendOutcome) (s : TransportState) :
    TransportStep :=
  if s.debounceArmed then performFlush sink { s with debounceArmed := false }
  else { state := s }

/-- Embedding of Transport.configure: spread the provided partial
options over the current ones, re-clamping batchSize and debounceMs
through the nullish-coalescing defaults; if debounceMs was provided and
the clamped value differs from the old one, the debounced function is
cancelled and recreated (disarming any pending flush). -/
def configure (options : PartialTransportOptions) (s : TransportState) :
    TransportState :=
  let o := s.transportOptions
  let newOptions : StoredTransportOptions :=
    { batchSize := max 1 (options.batchSize.getD o.batchSize)
      debounceMs := max 0 (options.debounceMs.getD o.debounceMs)
      level := options.level.getD o.level
      enabled := options.enabled.getD o.enabled
      label := options.label.getD o.label }
  let armed :=
    if options.debounceMs.isSome ∧ o.debounceMs ≠ newOptions.debounceMs then
      false
    else s.debounceArmed
  { transportOptions := newOptions, logQueue := s.logQueue
    debounceArmed := armed }

end Transport

/-- InjectableTransportOptions from src/transport/transport.ts: the
label, level and enabled fields a Logger pushes down to its transports.
Only the values are ever read, so one Option layer suffices. -/
structure InjectableTransportOptions where
  level : Option LogLevel := none
  enabled : Option Bool := none
  label : Option String := none

namespace TransportManager

/-- Loop body of TransportManager.injectOptions for one transport: build
an appliedOptions object containing label only when the stored label is
the empty string, enabled only when the stored enabled is undefined, and
level only when the stored level is undefined (each assignment makes the
property present, copying the possibly-undefined injected value), then
call configure with it. -/
def injectOptionsOne (options : InjectableTransportOptions)
    (t : TransportState) : TransportState :=
  let stored := t.transportOptions
  let applied : PartialTransportOptions :=
    { label := if stored.label = some "" then some options.label else none
      enabled := if stored.enabled = none then some options.enabled else none
      level := if stored.level = none then some options.level else none }
  Transport.configure applied t

/-- Embedding of TransportManager.injectOptions: apply the loop body to
every registered transport in order. -/
def injectOptions (options : InjectableTransportOptions)
    (transports : List TransportState) : List TransportState :=
  transports.map (fun t => injectOptionsOne options t)

end TransportManager

/-- Lookup of a key in metadata (first matching entry, as a JavaScript
object lookup; entries of a real object have unique keys). -/
def lookupMeta (m : LogMeta) (k : String) : Option JsValue :=
  match m.find? (fun p => p.1 == k) with
  | some p => some p.2
  | none => none

/-- Right-biased choice on optional values, the shape JavaScript
property resolution takes after an object spread. -/
def jsOrElse (a b : Option JsValue) : Option JsValue :=
  match a with
  | some v => some v
  | none => b

/-- Object spread of two metadata objects, as in the expression that
merges defaultMeta with the call-site metadata: the keys of the first
object in order, each taking the second object's value on collision,
followed by the second object's keys that are not in the first. -/
def spreadMerge (d m : LogMeta) : LogMeta :=
  d.map (fun p => (p.1, (lookupMeta m p.1).getD p.2))
    ++ m.filter (fun p => (lookupMeta d p.1).isNone)

/-- Condition of the last-argument-is-metadata heuristic in
splitLogParams: typeof object, not null, not an array. -/
def isMetaCandidate (v : JsValue) : Bool :=
  jsTypeof v == "object"
    && !(match v with | .vNull => true | _ => false)
    && !(match v with | .vArr _ => true | _ => false)

/-- Entries of a JavaScript object value, as Object.entries would list
them for the metadata candidate (a Date and the modelled cyclic object
expose no own enumerable string-keyed properties relevant here). -/
def jsEntries : JsValue → List (String × JsValue)
  | .vObj fields => fields
  | _ => []

/-- Result of splitLogParams: the message (head of the remaining
arguments), the positional parameters, and the sanitized metadata when
the heuristic detected one. -/
structure SplitResult where
  msg : Option JsValue
  params : List JsValue
  meta : Option LogMeta

/-- Embedding of splitLogParams from src/logger.ts: when more than one
argument was supplied and the last is a non-null non-array object, pop
it, sanitize it and return it as metadata; the first remaining argument
is the message, the rest are positional parameters. -/
def splitLogParams (args : List JsValue) : SplitResult :=
  match args.getLast? with
  | some last =>
    if args.length > 1 && isMetaCandidate last then
      let rest := args.dropLast
      { msg := rest.head?, params := rest.tail
        meta := some (sanitizeLogMeta (jsEntries last)) }
    else
      { msg := args.head?, params := args.tail, meta := none }
  | none => { msg := none, params := [], meta := none }

/-- The mergedMeta expression of the log closure in src/logger.ts:
undefined unless a default or call-site metadata exists, otherwise the
spread of defaultMeta under the call-site metadata. -/
def mergedMetaOf (defaultMeta callMeta : Option LogMeta) : Option LogMeta :=
  if defaultMeta.isSome || callMeta.isSome then
    some (spreadMerge (defaultMeta.getD []) (callMeta.getD []))
  else none

/-- LogClientOptions from src/logger.ts, restricted to the fields the
claims are about; the transports array and the no-transport warning
concern wiring to the transport layer, which the transport embedding
above covers, and are not needed by any claim about the facade. -/
structure LogClientOptions where
  label : String
  disabled : Option Bool := none
  hideMeta : Option Bool := none
  level : Option LogLevel := none
  defaultMeta : Option RawMeta := none

/-- State captured by one createLogger call: the options closure
variable, the mutable LogState (isEnabled and level), and the
construction-time sanitized defaultMeta. -/
structure Logger where
  opts : LogClientOptions
  isEnabled : Bool
  level : LogLevel
  defaultMeta : Option LogMeta

/-- Embedding of createLogger from src/logger.ts: enabled unless
disabled is exactly true, level defaults to INFO, defaultMeta is
sanitized once at construction when present. -/
def createLogger (options : LogClientOptions) : Logger :=
  { opts := options
    isEnabled := options.disabled ≠ some true
    level := options.level.getD LogLevel.info
    defaultMeta := options.defaultMeta.map sanitizeLogMeta }

namespace Logger

/-- Embedding of the setLogLevel facade method: update the mutable
state's level. -/
def setLogLevel (lg : Logger) (lvl : LogLevel) : Logger :=
  { lg with level := lvl }

/-- Embedding of the getLogLevel facade method. -/
def getLogLevel (lg : Logger) : LogLevel :=
  lg.level

/-- Embedding of the per-level log closure of createLogger: gate on
isEnabled and shouldPublishLog, split the arguments, merge defaultMeta
with the call-site metadata, format the text (util.format is an external
collaborator, passed in as fmt) and build the entry that is pushed to
the transport manager; none models the gated no-op. -/
def log (fmt : Option JsValue → List JsValue → String) (now : Nat)
    (lg : Logger) (level : LogLevel) (message : String)
    (args : List JsValue) : Option LogEntry :=
  if !lg.isEnabled || !shouldPublishLog lg.level level then none
  else
    let split := splitLogParams (JsValue.vStr message :: args)
    let mergedMeta := mergedMetaOf lg.defaultMeta split.meta
    let formattedText :=
      if args.length > 0 then fmt split.msg split.params else message
    some { dateTime := now, level := level, message := formattedText
           meta := mergedMeta }

/-- Embedding of the child facade method: a fresh createLogger call on
the child options, falling back field by field to the parent closure's
options (and, for level, to the parent's current mutable level). -/
def child (lg : Logger) (childOptions : LogClientOptions) : Logger :=
  createLogger
    { label := childOptions.label
      disabled := childOptions.disabled.or lg.opts.disabled
      hideMeta := childOptions.hideMeta.or lg.opts.hideMeta
      level := some (childOptions.level.getD lg.level)
      defaultMeta := childOptions.defaultMeta.or lg.opts.defaultMeta }

end Logger

/-- Falsy test written from the specification wording for the sanitizer
claim: the falsy values are null, undefined, the number 0, the empty
string and false. -/
def isFalsyClaim : JsValue → Bool
  | .vNull => true
  | .vUndefined => true
  | .vNum n => n == 0
  | .vStr s => s == ""
  | .vBool b => !b
  | _ => false

/-- Per-value sanitizer written from the specification wording, for
comparison with the source-derived sanitizeValue: falsy values pass
through unchanged; truthy strings, numbers and booleans pass through
unchanged; functions and symbols become their textual String()
representation; every other value becomes its JSON serialization as a
string, falling back to the generic String() representation when
serialization fails. -/
def sanitizeValueClaim (value : JsValue) : JsValue :=
  if isFalsyClaim value then value
  else
    match value with
    | .vStr _ => value
    | .vNum _ => value
    | .vBool _ => value
    | .vFunc _ => JsValue.vStr (jsToString value)
    | .vSym _ => JsValue.vStr (jsToString value)
    | _ =>
      match jsonRun value with
      | .ok s => JsValue.vStr s
      | _ => JsValue.vStr (jsToString value)

/-- Whole-object sanitizer written from the specification wording. -/
def sanitizeLogMetaClaim (rawMeta : RawMeta) : LogMeta :=
  rawMeta.map (fun p => (p.1, sanitizeValueClaim p.2))

/-- A sink whose delivery always succeeds. -/
def sinkSuccess : List LogEntry → SendOutcome := fun _ => SendOutcome.success

/-- A sink whose delivery always throws synchronously. -/
def sinkThrows : List LogEntry → SendOutcome := fun _ => SendOutcome.syncThrow

/-- A sink whose delivery always rejects asynchronously. -/
def sinkRejects : List LogEntry → SendOutcome := fun _ => SendOutcome.asyncReject

/-- Sample INFO entry. -/
def entryInfoA : LogEntry := { dateTime := 0, level := LogLevel.info, message := "a" }

/-- Sample WARN entry. -/
def entryWarnB : LogEntry := { dateTime := 1, level := LogLevel.warn, message := "b" }

/-- Concrete enabled transport with level INFO and batch size 2. -/
def demoBatchTwo : TransportState :=
  mkTransport
    { batchSize := some 2, debounceMs := some 300
      level := some (some LogLevel.info), enabled := some (some true)
      label := some (some "demo") }

/-- Concrete disabled transport whose level option was never set. -/
def demoDisabledNoLevel : TransportState :=
  mkTransport { enabled := some (some false), label := some (some "off") }

/-- The transport state reached by enqueuing one INFO entry into
demoBatchTwo after destroying it: the entry is queued and the debounced
flush is re-armed. -/
def postDestroyAddState : TransportState :=
  { transportOptions := demoBatchTwo.transportOptions
    logQueue := [entryInfoA]
    debounceArmed := true }

/-- Concrete transport whose label, level and enabled were all
explicitly configured. -/
def demoConfigured : TransportState :=
  mkTransport
    { level := some (some LogLevel.warn), enabled := some (some false)
      label := some (some "set") }

/-- Concrete injectable options a logger would push down. -/
def demoInjectable : InjectableTransportOptions :=
  { level := some LogLevel.debug, enabled := some true, label := some "inj" }

/-- Trivial formatter standing in for the external util.format. -/
def fmtConst : Option JsValue → List JsValue → String := fun _ _ => "t"

/-- Concrete logger with a default metadata entry, for witnesses. -/
def demoLogger : Logger :=
  createLogger
    { label := "app"
      defaultMeta := some [("a", JsValue.vNum 1), ("b", JsValue.vNum 7)] }

/-- A live transport state as it might look when an asynchronous
rejection callback runs: one entry was enqueued after the failed flush
began. -/
def demoLater : TransportState :=
  { transportOptions := demoBatchTwo.transportOptions
    logQueue := [entryWarnB]
    debounceArmed := true }

/-! Helper lemmas about metadata lookup and the object spread. -/

theorem lookupMeta_nil (k : String) : lookupMeta [] k = none := rfl

theorem lookupMeta_cons (p : String × JsValue) (rest : LogMeta) (k : String) :
    lookupMeta (p :: rest) k =
      if p.1 == k then some p.2 else lookupMeta rest k := by
  by_cases h : p.1 == k <;> simp [lookupMeta, List.find?, h]

theorem lookupMeta_append (l1 l2 : LogMeta) (k : String) :
    lookupMeta (l1 ++ l2) k =
      jsOrElse (lookupMeta l1 k) (lookupMeta l2 k) := by
  induction l1 with
  | nil => simp [lookupMeta_nil, jsOrElse]
  | cons p rest ih =>
    by_cases h : p.1 == k <;>
      simp [lookupMeta_cons, h, jsOrElse, ih]

theorem lookupMeta_mapValues (m d : LogMeta) (k : String) :
    lookupMeta (d.map (fun p => (p.1, (lookupMeta m p.1).getD p.2))) k =
      (lookupMeta d k).map (fun v => (lookupMeta m k).getD v) := by
  induction d with
  | nil => simp [lookupMeta_nil]
  | cons p rest ih =>
    by_cases h : p.1 == k
    · have hk : p.1 = k := by simpa using h
      simp [lookupMeta_cons, h, hk]
    · simp [lookupMeta_cons, h, ih]

theorem lookupMeta_filter_of_absent (d m : LogMeta) (k : String)
    (h : lookupMeta d k = none) :
    lookupMeta (m.filter (fun p => (lookupMeta d p.1).isNone)) k =
      lookupMeta m k := by
  induction m with
  | nil => simp
  | cons q rest ih =>
    by_cases hq : q.1 == k
    · have hk : q.1 = k := by simpa using hq
      have : (lookupMeta d q.1).isNone = true := by simp [hk, h]
      simp [List.filter_cons, this, lookupMeta_cons, hq]
    · by_cases hp : (lookupMeta d q.1).isNone = true <;>
        simp [List.filter_cons, hp, lookupMeta_cons, hq, ih]

theorem spreadMerge_lookup (d m : LogMeta) (k : String) :
    lookupMeta (spreadMerge d m) k =
      jsOrElse (lookupMeta m k) (lookupMeta d k) := by
  rw [spreadMerge, lookupMeta_append, lookupMeta_mapValues]
  cases hd : lookupMeta d k with
  | none =>
    rw [lookupMeta_filter_of_absent d m k hd]
    cases lookupMeta m k <;> simp [jsOrElse]
  | some v =>
    cases hm : lookupMeta m k <;> simp [jsOrElse, hm]

theorem spreadMerge_nil_right (d : LogMeta) : spreadMerge d [] = d := by
  simp [spreadMerge, lookupMeta_nil]

/-- Helper: the source-derived per-value sanitizer coincides with the
per-value sanitizer written from the specification wording. -/
theorem sanitizeValue_eq_claim (v : JsValue) :
    sanitizeValue v = sanitizeValueClaim v := by
  cases v with
  | vNull => rfl
  | vUndefined => rfl
  | vStr s =>
    by_cases h : s == "" <;>
      simp [sanitizeValue, sanitizeValueClaim, isFalsy, isFalsyClaim,
        jsTypeof, h]
  | vNum n =>
    by_cases h : n == 0 <;>
      simp [sanitizeValue, sanitizeValueClaim, isFalsy, isFalsyClaim,
        jsTypeof, h]
  | vBool b => cases b <;> rfl
  | vFunc src => rfl
  | vSym desc => rfl
  | vObj fields =>
    cases h : jsonFieldStrings fields <;>
      simp [sanitizeValue, sanitizeValueClaim, isFalsy, isFalsyClaim,
        jsTypeof, jsonRun, h]
  | vArr items =>
    cases h : jsonItemStrings items <;>
      simp [sanitizeValue, sanitizeValueClaim, isFalsy, isFalsyClaim,
        jsTypeof, jsonRun, h]
  | vDate iso => rfl
  | vCyclic => rfl

/-- C1: for every pair of levels, shouldPublishLog returns false when
the current level is SILENT, and otherwise returns true exactly when the
message level is numerically less than or equal to the current level
(smaller = more severe). -/
theorem shouldPublishLog_gate (c m : LogLevel) :
    shouldPublishLog LogLevel.silent m = false
    ∧ (shouldPublishLog c m = true
        ↔ c ≠ LogLevel.silent ∧ levelValue m ≤ levelValue c) := by
  refine ⟨rfl, ?_⟩
  cases c <;> cases m <;> decide

/-- C8: sanitizeLogMeta maps each key/value pair exactly as the
specification describes and never throws (it is a total function): falsy
values pass through unchanged, truthy strings/numbers/booleans pass
through unchanged, functions and symbols become their String()
representation, every other value becomes its JSON serialization as a
string, and a value whose serialization fails (the self-referential
case) becomes the generic String() fallback instead of an exception. -/
theorem sanitizeLogMeta_spec (rawMeta : RawMeta) (v : JsValue) :
    sanitizeLogMeta rawMeta = sanitizeLogMetaClaim rawMeta
    ∧ sanitizeValue v = sanitizeValueClaim v := by
  refine ⟨?_, sanitizeValue_eq_claim v⟩
  have h : (fun p : String × JsValue => (p.1, sanitizeValue p.2))
      = fun p : String × JsValue => (p.1, sanitizeValueClaim p.2) :=
    funext fun p => by rw [sanitizeValue_eq_claim]
  rw [sanitizeLogMeta, sanitizeLogMetaClaim, h]

/-- Helper: pushing one passing entry that does not yet reach the batch
size just queues it and (re)arms the debounced flush. -/
theorem addLogToQueue_below (sink : List LogEntry → SendOutcome)
    (e : LogEntry) (s : TransportState) (l : LogLevel)
    (hlvl : s.transportOptions.level = some l)
    (hen : s.transportOptions.enabled = some true)
    (hge : shouldPublishLog l e.level = true)
    (hlt : ((s.logQueue.length : Int) + 1 < s.transportOptions.batchSize)) :
    Transport.addLogToQueue sink e s =
      Except.ok
        { state :=
            { transportOptions := s.transportOptions
              logQueue := s.logQueue ++ [e]
              debounceArmed := true } } := by
  have hcond : ¬ ((s.logQueue.length : Int) + 1
      ≥ s.transportOptions.batchSize) := by omega
  simp [Transport.addLogToQueue, hlvl, hen, hge, hcond]

/-- Helper: pushing one passing entry that reaches the batch size
cancels the debounce and synchronously flushes the whole queue. -/
theorem addLogToQueue_reach (sink : List LogEntry → SendOutcome)
    (e : LogEntry) (s : TransportState) (l : LogLevel)
    (hlvl : s.transportOptions.level = some l)
    (hen : s.transportOptions.enabled = some true)
    (hge : shouldPublishLog l e.level = true)
    (hreach : ((s.logQueue.length : Int) + 1 ≥ s.transportOptions.batchSize))
    (hsink : sink (s.logQueue ++ [e]) = SendOutcome.success) :
    Transport.addLogToQueue sink e s =
      Except.ok
        { state :=
            { transportOptions := s.transportOptions
              logQueue := []
              debounceArmed := false }
          calls := [s.logQueue ++ [e]] } := by
  simp [Transport.addLogToQueue, hlvl, hen, hge, hreach, performFlush, hsink]

/-- Helper: unfolding of the entry-list fold when the head call and the
tail both succeed. -/
theorem addLogsToQueue_cons_ok (sink : List LogEntry → SendOutcome)
    (e : LogEntry) (rest : List LogEntry) (s : TransportState)
    (step1 step2 : TransportStep)
    (h1 : Transport.addLogToQueue sink e s = Except.ok step1)
    (h2 : Transport.addLogsToQueue sink rest step1.state = Except.ok step2) :
    Transport.addLogsToQueue sink (e :: rest) s =
      Except.ok
        { state := step2.state
          calls := step1.calls ++ step2.calls
          pendingRejections :=
            step1.pendingRejections ++ step2.pendingRejections } := by
  simp [Transport.addLogsToQueue, h1, h2]

/-- Helper: feeding entries that exactly fill the remaining batch
capacity produces one successful synchronous sendBatch call carrying the
whole queue contents in insertion order, leaving an empty queue and a
disarmed debounce. -/
theorem addLogsToQueue_batch_exact (sink : List LogEntry → SendOutcome)
    (l : LogLevel) (entries : List LogEntry) :
    ∀ s : TransportState,
      entries ≠ [] →
      s.transportOptions.level = some l →
      s.transportOptions.enabled = some true →
      (∀ e ∈ entries, shouldPublishLog l e.level = true) →
      ((s.logQueue.length : Int) + entries.length
        = s.transportOptions.batchSize) →
      sink (s.logQueue ++ entries) = SendOutcome.success →
      Transport.addLogsToQueue sink entries s =
        Except.ok
          { state :=
              { transportOptions := s.transportOptions
                logQueue := []
                debounceArmed := false }
            calls := [s.logQueue ++ entries] } := by
  induction entries with
  | nil => intro s hne _ _ _ _ _; exact absurd rfl hne
  | cons e rest ih =>
    intro s _ hlvl hen hgate hsum hsink
    have hge : shouldPublishLog l e.level = true :=
      hgate e (List.mem_cons_self e rest)
    cases rest with
    | nil =>
      have hreach : ((s.logQueue.length : Int) + 1
          ≥ s.transportOptions.batchSize) := by
        simp at hsum
        omega
      rw [addLogsToQueue_cons_ok sink e [] s _ _
        (addLogToQueue_reach sink e s l hlvl hen hge hreach hsink) rfl]
      simp
    | cons e2 rest2 =>
      have hlt : ((s.logQueue.length : Int) + 1
          < s.transportOptions.batchSize) := by
        simp at hsum
        omega
      have hrec := ih
        { transportOptions := s.transportOptions
          logQueue := s.logQueue ++ [e]
          debounceArmed := true }
        (by simp) hlvl hen
        (fun x hx => hgate x (List.mem_cons_of_mem e hx))
        (by simp at hsum ⊢; omega)
        (by simpa [List.append_assoc] using hsink)
      rw [addLogsToQueue_cons_ok sink e (e2 :: rest2) s _ _
        (addLogToQueue_below sink e s l hlvl hen hge hlt) hrec]
      simp [List.append_assoc]

/-- C2: on an enabled transport with a set level and an empty queue,
enqueuing exactly batchSize entries that all pass the level gate causes
exactly one synchronous sendBatch invocation whose argument is all the
entries in insertion order; afterwards the live queue is empty and no
debounced flush remains armed, so the debounce window expiring delivers
nothing further. -/
theorem transport_batch_flush (sink : List LogEntry → SendOutcome)
    (s : TransportState) (l : LogLevel) (entries : List LogEntry)
    (hlvl : s.transportOptions.level = some l)
    (hen : s.transportOptions.enabled = some true)
    (hq : s.logQueue = [])
    (hne : entries ≠ [])
    (hlen : (entries.length : Int) = s.transportOptions.batchSize)
    (hgate : ∀ e ∈ entries, shouldPublishLog l e.level = true)
    (hsink : sink entries = SendOutcome.success) :
    Transport.addLogsToQueue sink entries s =
      Except.ok
        { state :=
            { transportOptions := s.transportOptions
              logQueue := []
              debounceArmed := false }
          calls := [entries] }
    ∧ Transport.fireDebounce sink
        { transportOptions := s.transportOptions
          logQueue := []
          debounceArmed := false } =
      { state :=
          { transportOptions := s.transportOptions
            logQueue := []
            debounceArmed := false } } := by
  constructor
  · have h := addLogsToQueue_batch_exact sink l entries s hne hlvl hen hgate
      (by rw [hq]; simpa using hlen) (by rw [hq]; simpa using hsink)
    simpa [hq] using h
  · simp [Transport.fireDebounce]

/-- Witness for C2 at a concrete transport with batch size 2. -/
theorem transport_batch_flush_witness :
    Transport.addLogsToQueue sinkSuccess [entryInfoA, entryWarnB] demoBatchTwo =
      Except.ok
        { state :=
            { transportOptions := demoBatchTwo.transportOptions
              logQueue := []
              debounceArmed := false }
          calls := [[entryInfoA, entryWarnB]] }
    ∧ Transport.fireDebounce sinkSuccess
        { transportOptions := demoBatchTwo.transportOptions
          logQueue := []
          debounceArmed := false } =
      { state :=
          { transportOptions := demoBatchTwo.transportOptions
            logQueue := []
            debounceArmed := false } } :=
  transport_batch_flush sinkSuccess demoBatchTwo LogLevel.info
    [entryInfoA, entryWarnB] rfl rfl rfl (by simp) rfl
    (by intro e he; fin_cases he <;> rfl) rfl

/-- C3: a failing delivery is fully recovered inside the flush procedure
(the operation returns normally in both failure modes; the failure never
reaches the caller). For a synchronous throw the snapshot is immediately
requeued unchanged, and a later successful flush delivers exactly those
entries again. For an asynchronous rejection the snapshot is recorded as
pending and its handler prepends it to whatever the live queue holds at
rejection time, so the failed entries sit in original order ahead of
everything enqueued since the flush began, and a later successful flush
delivers them again. -/
theorem transport_failure_requeue (s later : TransportState)
    (sinkThrow sinkReject goodSink goodSink2 : List LogEntry → SendOutcome)
    (hq : s.logQueue ≠ [])
    (hthrow : sinkThrow s.logQueue = SendOutcome.syncThrow)
    (hreject : sinkReject s.logQueue = SendOutcome.asyncReject)
    (hgood : goodSink s.logQueue = SendOutcome.success)
    (hgood2 : goodSink2 (s.logQueue ++ later.logQueue)
      = SendOutcome.success) :
    ((performFlush sinkThrow s).calls = [s.logQueue]
      ∧ (performFlush sinkThrow s).state.logQueue = s.logQueue
      ∧ (performFlush sinkThrow s).pendingRejections = []
      ∧ (Transport.flush goodSink (performFlush sinkThrow s).state).calls
          = [s.logQueue]
      ∧ (Transport.flush goodSink
          (performFlush sinkThrow s).state).state.logQueue = [])
    ∧ ((performFlush sinkReject s).calls = [s.logQueue]
      ∧ (performFlush sinkReject s).state.logQueue = []
      ∧ (performFlush sinkReject s).pendingRejections = [s.logQueue]
      ∧ (handleAsyncRejection s.logQueue later).logQueue
          = s.logQueue ++ later.logQueue
      ∧ (Transport.flush goodSink2
          (handleAsyncRejection s.logQueue later)).calls
          = [s.logQueue ++ later.logQueue]) := by
  have hthrowFlush : performFlush sinkThrow s =
      { state :=
          { transportOptions := s.transportOptions
            logQueue := s.logQueue
            debounceArmed := s.debounceArmed }
        calls := [s.logQueue] } := by
    simp [performFlush, hq, hthrow]
  have hrejectFlush : performFlush sinkReject s =
      { state :=
          { transportOptions := s.transportOptions
            logQueue := []
            debounceArmed := s.debounceArmed }
        calls := [s.logQueue]
        pendingRejections := [s.logQueue] } := by
    simp [performFlush, hq, hreject]
  refine ⟨⟨?_, ?_, ?_, ?_, ?_⟩, ⟨?_, ?_, ?_, ?_, ?_⟩⟩
  · rw [hthrowFlush]
  · rw [hthrowFlush]
  · rw [hthrowFlush]
  · rw [hthrowFlush]
    simp [Transport.flush, performFlush, hq, hgood]
  · rw [hthrowFlush]
    simp [Transport.flush, performFlush, hq, hgood]
  · rw [hrejectFlush]
  · rw [hrejectFlush]
  · rw [hrejectFlush]
  · rfl
  · have hne : s.logQueue ++ later.logQueue ≠ [] := by
      intro hcon
      exact hq (List.append_eq_nil.mp hcon).1
    simp [Transport.flush, performFlush, handleAsyncRejection, hne, hgood2]

/-- Witness for C3 at a concrete non-empty queue and concrete sinks. -/
theorem transport_failure_requeue_witness :
    ((performFlush sinkThrows postDestroyAddState).calls = [[entryInfoA]]
      ∧ (performFlush sinkThrows postDestroyAddState).state.logQueue
          = [entryInfoA]
      ∧ (performFlush sinkThrows postDestroyAddState).pendingRejections = []
      ∧ (Transport.flush sinkSuccess
          (performFlush sinkThrows postDestroyAddState).state).calls
          = [[entryInfoA]]
      ∧ (Transport.flush sinkSuccess
          (performFlush sinkThrows postDestroyAddState).state).state.logQueue
          = [])
    ∧ ((performFlush sinkRejects postDestroyAddState).calls = [[entryInfoA]]
      ∧ (performFlush sinkRejects postDestroyAddState).state.logQueue = []
      ∧ (performFlush sinkRejects postDestroyAddState).pendingRejections
          = [[entryInfoA]]
      ∧ (handleAsyncRejection [entryInfoA] demoLater).logQueue
          = [entryInfoA] ++ demoLater.logQueue
      ∧ (Transport.flush sinkSuccess
          (handleAsyncRejection [entryInfoA] demoLater)).calls
          = [[entryInfoA] ++ demoLater.logQueue]) :=
  transport_failure_requeue postDestroyAddState demoLater
    sinkThrows sinkRejects sinkSuccess sinkSuccess
    (by simp [postDestroyAddState]) rfl rfl rfl rfl

/-- C4: on every write of the stored options, at construction with any
options and at every configure call with any partial options from any
state, batchSize is clamped to at least 1 and debounceMs to at least 0. -/
theorem transport_options_clamped (opts p : PartialTransportOptions)
    (s : TransportState) :
    (1 ≤ (mkTransport opts).transportOptions.batchSize
      ∧ 0 ≤ (mkTransport opts).transportOptions.debounceMs)
    ∧ (1 ≤ (Transport.configure p s).transportOptions.batchSize
      ∧ 0 ≤ (Transport.configure p s).transportOptions.debounceMs) := by
  refine ⟨⟨?_, ?_⟩, ⟨?_, ?_⟩⟩ <;>
    simp [mkTransport, Transport.configure, le_max_left]

/-- Counterexample to C5 as stated: destroy does not permanently cancel
the scheduler. After destroy on a concrete transport, a single
addLogToQueue below the batch size re-arms the debounced flush, and when
the debounce window elapses a delivery fires. -/
theorem destroy_not_permanent_counterexample :
    Transport.addLogToQueue sinkSuccess entryInfoA
        (Transport.destroy sinkSuccess demoBatchTwo).state
      = Except.ok { state := postDestroyAddState }
    ∧ postDestroyAddState.debounceArmed = true
    ∧ (Transport.fireDebounce sinkSuccess postDestroyAddState).calls
        = [[entryInfoA]] :=
  ⟨rfl, rfl, rfl⟩

/-- C5 amended: destroy first flushes (performing the same delivery
calls a flush would) and cancels the pending debounced flush, so with no
further addLogToQueue calls no automatic flush ever fires afterwards and
the later manual operations are ordinary total calls; however a later
addLogToQueue can re-arm the debounce (see the counterexample), so the
cancellation is not permanent. -/
theorem destroy_flushes_and_disarms
    (sink sink2 : List LogEntry → SendOutcome) (s : TransportState) :
    (Transport.destroy sink s).state.debounceArmed = false
    ∧ (Transport.destroy sink s).calls = (Transport.flush sink s).calls
    ∧ Transport.fireDebounce sink2 (Transport.destroy sink s).state
        = { state := (Transport.destroy sink s).state } := by
  have h : (Transport.destroy sink s).state.debounceArmed = false := rfl
  refine ⟨rfl, rfl, ?_⟩
  simp [Transport.fireDebounce, h]

/-- C10: whenever the level option was never set, addLogToQueue throws
the configuration-misuse error for every entry, before the enabled
filter is even consulted. -/
theorem addLogToQueue_level_unset (sink : List LogEntry → SendOutcome)
    (entry : LogEntry) (s : TransportState)
    (hlvl : s.transportOptions.level = none) :
    Transport.addLogToQueue sink entry s
      = Except.error "level is not set on transport" := by
  simp [Transport.addLogToQueue, hlvl]

/-- Witness for C10 at a concrete transport that is disabled and has no
level: the assertion still throws. -/
theorem addLogToQueue_level_unset_witness :
    Transport.addLogToQueue sinkSuccess entryInfoA demoDisabledNoLevel
        = Except.error "level is not set on transport"
    ∧ demoDisabledNoLevel.transportOptions.enabled = some false :=
  ⟨addLogToQueue_level_unset sinkSuccess entryInfoA demoDisabledNoLevel rfl,
    rfl⟩

/-- C6: injectOptions maps every registered transport through its
per-transport body, and that body applies an injected field only when
the transport's own option is unset (label empty, level or enabled
undefined); every explicitly set label, level or enabled keeps its exact
value. -/
theorem injectOptions_respects_explicit
    (options : InjectableTransportOptions) (ts : List TransportState)
    (t : TransportState) :
    TransportManager.injectOptions options ts
        = ts.map (fun u => TransportManager.injectOptionsOne options u)
    ∧ (t.transportOptions.label ≠ some "" →
        (TransportManager.injectOptionsOne options t).transportOptions.label
          = t.transportOptions.label)
    ∧ (t.transportOptions.label = some "" →
        (TransportManager.injectOptionsOne options t).transportOptions.label
          = options.label)
    ∧ (t.transportOptions.level ≠ none →
        (TransportManager.injectOptionsOne options t).transportOptions.level
          = t.transportOptions.level)
    ∧ (t.transportOptions.level = none →
        (TransportManager.injectOptionsOne options t).transportOptions.level
          = options.level)
    ∧ (t.transportOptions.enabled ≠ none →
        (TransportManager.injectOptionsOne options t).transportOptions.enabled
          = t.transportOptions.enabled)
    ∧ (t.transportOptions.enabled = none →
        (TransportManager.injectOptionsOne options t).transportOptions.enabled
          = options.enabled) := by
  refine ⟨rfl, ?_, ?_, ?_, ?_, ?_, ?_⟩ <;> intro h <;>
    simp [TransportManager.injectOptionsOne, Transport.configure, h]

/-- Witness for C6 at a transport whose label, level and enabled were
all explicitly configured: injecting other values changes none of them. -/
theorem injectOptions_respects_explicit_witness :
    (TransportManager.injectOptionsOne demoInjectable
        demoConfigured).transportOptions.label
      = demoConfigured.transportOptions.label
    ∧ (TransportManager.injectOptionsOne demoInjectable
        demoConfigured).transportOptions.level
      = demoConfigured.transportOptions.level
    ∧ (TransportManager.injectOptionsOne demoInjectable
        demoConfigured).transportOptions.enabled
      = demoConfigured.transportOptions.enabled :=
  ⟨(injectOptions_respects_explicit demoInjectable [demoConfigured]
      demoConfigured).2.1 (by simp [demoConfigured, mkTransport])
  , (injectOptions_respects_explicit demoInjectable [demoConfigured]
      demoConfigured).2.2.2.1 (by simp [demoConfigured, mkTransport])
  , (injectOptions_respects_explicit demoInjectable [demoConfigured]
      demoConfigured).2.2.2.2.2.1 (by simp [demoConfigured, mkTransport])⟩

/-- C7: under the gate, the produced entry carries exactly the merged
metadata: the spread of the logger's defaultMeta under the sanitized
call-site metadata when the call supplies one (call-site values win on
every key collision, as the lookup equation states), exactly defaultMeta
when the call supplies none, and no metadata at all when neither
exists. -/
theorem logger_meta_merge (fmt : Option JsValue → List JsValue → String)
    (now : Nat) (lg : Logger) (lvl : LogLevel) (msg : String)
    (args : List JsValue) (k : String)
    (hen : lg.isEnabled = true)
    (hpub : shouldPublishLog lg.level lvl = true) :
    ((Logger.log fmt now lg lvl msg args).map LogEntry.meta
      = some (mergedMetaOf lg.defaultMeta
          (splitLogParams (JsValue.vStr msg :: args)).meta))
    ∧ ((splitLogParams (JsValue.vStr msg :: args)).meta = none →
        (Logger.log fmt now lg lvl msg args).map LogEntry.meta
          = some lg.defaultMeta)
    ∧ lookupMeta
        (spreadMerge (lg.defaultMeta.getD [])
          ((splitLogParams (JsValue.vStr msg :: args)).meta.getD [])) k
      = jsOrElse
          (lookupMeta
            ((splitLogParams (JsValue.vStr msg :: args)).meta.getD []) k)
          (lookupMeta (lg.defaultMeta.getD []) k) := by
  have hlog : (Logger.log fmt now lg lvl msg args).map LogEntry.meta
      = some (mergedMetaOf lg.defaultMeta
          (splitLogParams (JsValue.vStr msg :: args)).meta) := by
    simp [Logger.log, hen, hpub]
  refine ⟨hlog, ?_, spreadMerge_lookup _ _ k⟩
  intro hmeta
  rw [hlog, hmeta]
  cases hd : lg.defaultMeta with
  | none => simp [mergedMetaOf]
  | some d => simp [mergedMetaOf, spreadMerge_nil_right]

/-- C9: a child logger created with only a label reports the same
resolved level, hideMeta and defaultMeta as its parent at creation time.
Each createLogger call allocates its own LogState, which the embedding
reflects by value semantics: setting the level on one logger value
produces that logger with the new level while the other logger's
reported level stays the function of its own construction only. -/
theorem child_logger_inherits_and_independent
    (parentOpts : LogClientOptions) (childLabel : String)
    (l1 l2 : LogLevel) :
    (Logger.getLogLevel
        (Logger.child (createLogger parentOpts) { label := childLabel })
      = Logger.getLogLevel (createLogger parentOpts))
    ∧ ((Logger.child (createLogger parentOpts)
        { label := childLabel }).opts.hideMeta
      = (createLogger parentOpts).opts.hideMeta)
    ∧ ((Logger.child (createLogger parentOpts)
        { label := childLabel }).defaultMeta
      = (createLogger parentOpts).defaultMeta)
    ∧ Logger.getLogLevel
        (Logger.setLogLevel
          (Logger.child (createLogger parentOpts) { label := childLabel })
          l1)
      = l1
    ∧ Logger.getLogLevel (createLogger parentOpts)
      = parentOpts.level.getD LogLevel.info
    ∧ Logger.getLogLevel (Logger.setLogLevel (createLogger parentOpts) l2)
      = l2 := by
  refine ⟨?_, ?_, ?_, rfl, rfl, rfl⟩ <;>
    simp [Logger.child, createLogger, Logger.getLogLevel,
      Logger.setLogLevel]

/-- Witness for C7 at a concrete logger with default metadata and a call
supplying a colliding metadata object. -/
theorem logger_meta_merge_witness :
    ((Logger.log fmtConst 0 demoLogger LogLevel.info "m"
        [JsValue.vObj [("b", JsValue.vNum 2)]]).map LogEntry.meta
      = some (mergedMetaOf demoLogger.defaultMeta
          (splitLogParams (JsValue.vStr "m"
            :: [JsValue.vObj [("b", JsValue.vNum 2)]])).meta))
    ∧ ((splitLogParams (JsValue.vStr "m"
          :: [JsValue.vObj [("b", JsValue.vNum 2)]])).meta = none →
        (Logger.log fmtConst 0 demoLogger LogLevel.info "m"
          [JsValue.vObj [("b", JsValue.vNum 2)]]).map LogEntry.meta
          = some demoLogger.defaultMeta)
    ∧ lookupMeta
        (spreadMerge (demoLogger.defaultMeta.getD [])
          ((splitLogParams (JsValue.vStr "m"
            :: [JsValue.vObj [("b", JsValue.vNum 2)]])).meta.getD [])) "b"
      = jsOrElse
          (lookupMeta
            ((splitLogParams (JsValue.vStr "m"
              :: [JsValue.vObj [("b", JsValue.vNum 2)]])).meta.getD []) "b")
          (lookupMeta (demoLogger.defaultMeta.getD []) "b") :=
  logger_meta_merge fmtConst 0 demoLogger LogLevel.info "m"
    [JsValue.vObj [("b", JsValue.vNum 2)]] "b" rfl rfl
